import Mathlib

/-!
Verification of the Energenie MiHome radio driver (`hw/energenie/mihome.go`).

The development shallowly embeds the driver: pure byte-level encoders become
Lean functions on `Nat` (Go `byte` values are naturals, truncated with `% 256`
where the source shifts them); the stateful driver becomes explicit state
passing over a `DState` record, with the external transceiver, GPIO, protocol
decoder and cancellation context modelled as an oracle (`Env`) that drives
fault injection, read payloads, decode results and cancellation.  Go's
`([]byte, error)` return shapes become `Option GoError` error slots carried
next to the state, and Go `nil` slices are `Option.none`.
-/

/-- Go error values used by the driver (`gopi.ErrBadParameter`,
`gopi.ErrNotImplemented`, `gopi.ErrAppError`); `transport c` stands for an
arbitrary error surfaced by the transceiver or decoder, tagged by a code so
that verbatim propagation is observable; `hexInvalid` stands for the errors of
`encoding/hex`. -/
inductive GoError
  | badParameter
  | notImplemented
  | appError
  | hexInvalid
  | transport (code : Nat)
deriving DecidableEq, Repr

/-- OOK nibble for a zero bit (`OOK_ZERO = 0x08` in the source). -/
def OOK_ZERO : Nat := 0x08

/-- OOK nibble for a one bit (`OOK_ONE = 0x0E` in the source). -/
def OOK_ONE : Nat := 0x0E

/-- OOK preamble sent before each command (`OOK_PREAMBLE` in the source). -/
def OOK_PREAMBLE : List Nat := [0x80, 0x00, 0x00, 0x00]

/-- Command byte constants from the source. -/
def OOK_NONE : Nat := 0x00

def OOK_ON_ALL : Nat := 0x0D

def OOK_OFF_ALL : Nat := 0x0C

def OOK_ON_1 : Nat := 0x0F

def OOK_OFF_1 : Nat := 0x0E

def OOK_ON_2 : Nat := 0x07

def OOK_OFF_2 : Nat := 0x06

def OOK_ON_3 : Nat := 0x0B

def OOK_OFF_3 : Nat := 0x0A

def OOK_ON_4 : Nat := 0x03

def OOK_OFF_4 : Nat := 0x02

/-- One pass of the inner loop of `encodeByte`: `by <<= 4`, or in the nibble
selected by the top bit of `value`, then `value <<= 1` (byte arithmetic). -/
def encodeBitStep (a : Nat × Nat) : Nat × Nat :=
  let v := a.1
  let acc := Nat.shiftLeft a.2 4
  let acc2 := if Nat.land v 0x80 = 0 then Nat.lor acc OOK_ZERO else Nat.lor acc OOK_ONE
  (v * 2 % 256, acc2)

/-- Embedding of `encodeByte`: a byte is encoded as 4 bytes, each bit becoming
the nibble `0x8` or `0xE`, most-significant bit first, two nibbles per output
byte. -/
def encodeByte (value : Nat) : List Nat :=
  ((List.range 4).foldl
    (fun (st : Nat × List Nat) _ =>
      let inner := (List.range 2).foldl (fun a _ => encodeBitStep a) (st.1, 0)
      (inner.1, st.2 ++ [inner.2]))
    (value % 256, [])).2

/-- Embedding of `encodeByteArray`: `nil` stays `nil`, otherwise every byte is
encoded with `encodeByte` and the results are appended. -/
def encodeByteArray (array : Option (List Nat)) : Option (List Nat) :=
  match array with
  | none => none
  | some a => some (a.foldl (fun acc x => acc ++ encodeByte x) [])

/-- Go `len` of a nilable byte slice. -/
def goLen (b : Option (List Nat)) : Nat :=
  match b with
  | none => 0
  | some l => l.length

/-- The bytes of a nilable slice (a `nil` slice ranges over nothing). -/
def goBytes (b : Option (List Nat)) : List Nat :=
  match b with
  | none => []
  | some l => l

/-- Embedding of `encodeCommandPayload`: checks the encoded command is 4 bytes
and the encoded address 12 bytes, then builds preamble (4) ++ last 10 bytes of
the encoded address ++ last 2 bytes of the encoded command. -/
def encodeCommandPayload (cid : Option (List Nat)) (cmd : Nat) : Except GoError (List Nat) :=
  let encoded_cmd := encodeByte cmd
  if encoded_cmd.length ≠ 4 then Except.error GoError.appError
  else
    let encoded_cid := encodeByteArray cid
    if goLen encoded_cid ≠ 12 then Except.error GoError.appError
    else Except.ok (OOK_PREAMBLE ++ (goBytes encoded_cid).drop 2 ++ encoded_cmd.drop 2)

/-- Value of a hexadecimal digit, as accepted by Go's `encoding/hex`. -/
def hexDigitVal (c : Char) : Option Nat :=
  if '0' ≤ c ∧ c ≤ '9' then some (c.toNat - '0'.toNat)
  else if 'a' ≤ c ∧ c ≤ 'f' then some (c.toNat - 'a'.toNat + 10)
  else if 'A' ≤ c ∧ c ≤ 'F' then some (c.toNat - 'A'.toNat + 10)
  else none

/-- Embedding of `hex.DecodeString` on an even-length character list: decode
two hex digits per output byte, failing on a non-digit or a dangling digit. -/
def hexDecodePairs : List Char → Except GoError (List Nat)
  | [] => Except.ok []
  | [_] => Except.error GoError.hexInvalid
  | a :: b :: rest =>
    match hexDigitVal a, hexDigitVal b with
    | some ha, some hb =>
      match hexDecodePairs rest with
      | Except.ok t => Except.ok ((ha * 16 + hb) :: t)
      | Except.error e => Except.error e
    | _, _ => Except.error GoError.hexInvalid

/-- Embedding of `decodeHexString`: left-pad with `"0"` while the length is
odd (at most one prepend makes it even), then hex-decode. -/
def decodeHexString (value : String) : Except GoError (List Nat) :=
  hexDecodePairs (if value.length % 2 ≠ 0 then '0' :: value.data else value.data)

/-- High-nibble-first nibble stream of a byte list (each byte `x` contributes
`x / 16 % 16` then `x % 16`). -/
def nibbles (l : List Nat) : List Nat :=
  (l.map (fun x => [x / 16 % 16, x % 16])).flatten

/-- Inverse nibble mapping of the spec: `0x8` decodes to bit 0, `0xE` to bit 1,
anything else is invalid. -/
def ookNibbleBit (n : Nat) : Option Nat :=
  if n = OOK_ZERO then some 0 else if n = OOK_ONE then some 1 else none

/-- Decode a 4-byte OOK encoding back to its source byte by reading the 8
nibbles most-significant-bit first. -/
def ookDecodeByte (l : List Nat) : Option Nat :=
  (nibbles l).foldl
    (fun acc n =>
      match acc, ookNibbleBit n with
      | some a, some bit => some (a * 2 + bit)
      | _, _ => none)
    (some 0)

/-- The nibble an encoded bit should carry: `0x8` for a zero bit, `0xE` for a
one bit. -/
def ookNibbleOfBit (bit : Bool) : Nat :=
  if bit then OOK_ONE else OOK_ZERO

deriving instance DecidableEq for Except

/-- Transceiver operating modes used by the driver (`RFM_MODE_STDBY`,
`RFM_MODE_TX`, `RFM_MODE_RX`). -/
inductive RFMMode
  | standby
  | tx
  | rx
deriving DecidableEq, Repr

/-- Transceiver modulations (`RFM_MODULATION_OOK`, `RFM_MODULATION_FSK`). -/
inductive RFMModulation
  | ook
  | fsk
deriving DecidableEq, Repr

/-- Logical driver mode (`MIHOME_MODE_NONE/CONTROL/MONITOR`); `unset` is
`MIHOME_MODE_NONE`. -/
inductive MiHomeMode
  | unset
  | control
  | monitor
deriving DecidableEq, Repr

/-- Numeric codes standing for the named transceiver register constants the
configuration sequences pass; their values are irrelevant to the claims, the
trace records them symbolically. -/
def RFM_AFCMODE_OFF : Nat := 0

def RFM_AFCROUTINE_STANDARD : Nat := 0

def RFM_LNA_IMPEDANCE_50 : Nat := 50

def RFM_LNA_GAIN_AUTO : Nat := 0

def RFM_RXBW_FREQUENCY_FSK_62P5 : Nat := 625

def RFM_RXBW_CUTOFF_4 : Nat := 4

def RFM_DATAMODE_PACKET : Nat := 0

def RFM_PACKET_FORMAT_VARIABLE : Nat := 1

def RFM_PACKET_CODING_NONE : Nat := 0

def RFM_PACKET_CODING_MANCHESTER : Nat := 1

def RFM_PACKET_FILTER_NONE : Nat := 0

def RFM_PACKET_CRC_OFF : Nat := 0

/-- LED identifiers, following the source's iota order
(`LED_ALL, LED_1, LED_2, LED_RX, LED_TX`). -/
def LED_RX : Nat := 3

def LED_TX : Nat := 4

/-- One observable effect issued by the driver against the transceiver or the
GPIO lines.  Constructors mirror the `sensors.RFM69` methods the driver calls;
`setLED` records an indicator write (the driver ignores its result). -/
inductive Act
  | setMode (m : RFMMode)
  | setModulation (m : RFMModulation)
  | setSequencer (b : Bool)
  | setBitrate (n : Nat)
  | setFreqCarrier (n : Nat)
  | setFreqDeviation (n : Nat)
  | setAFCMode (n : Nat)
  | setAFCRoutine (n : Nat)
  | setLNA (imp gain : Nat)
  | setRXFilter (bw cutoff : Nat)
  | setDataMode (n : Nat)
  | setPacketFormat (n : Nat)
  | setPacketCoding (n : Nat)
  | setPacketFilter (n : Nat)
  | setPacketCRC (n : Nat)
  | setPreambleSize (n : Nat)
  | setPayloadSize (n : Nat)
  | setSyncWord (w : Option (List Nat))
  | setSyncTolerance (n : Nat)
  | setNodeAddress (n : Nat)
  | setBroadcastAddress (n : Nat)
  | setAESKey (k : Option (List Nat))
  | setFIFOThreshold (n : Nat)
  | clearFIFO
  | readPayload
  | writePayload (payload : List Nat) (rep : Nat)
  | setLED (led : Nat) (lit : Bool)
deriving DecidableEq, Repr

/-- The transceiver registers the driver reads back (`Modulation()` and
`Mode()` getters); the remaining registers are write-only from the driver's
point of view and live only in the trace. -/
structure RadioState where
  opmode : RFMMode
  modulation : RFMModulation
deriving DecidableEq, Repr

/-- Register effect of a successful radio call on the read-back state. -/
def applyOp (op : Act) (r : RadioState) : RadioState :=
  match op with
  | Act.setMode m => { r with opmode := m }
  | Act.setModulation m => { r with modulation := m }
  | _ => r

/-- A published `monitor_rx_event`: timestamp (abstracted to the loop
iteration index), decoded message identity, and the nullable decode failure. -/
structure Event where
  ts : Nat
  message : Nat
  reason : Option GoError
deriving DecidableEq, Repr

/-- Driver state: the logical mode field, the transceiver's read-back
registers, the configured device address and repeat count, plus the
observables of a run — a radio-call counter for fault injection, the trace of
issued actions, the published events, and the errors logged (not returned). -/
structure DState where
  mode : MiHomeMode
  radio : RadioState
  cid : Option (List Nat)
  rep : Nat
  counter : Nat
  trace : List Act
  events : List Event
  logged : List GoError
deriving DecidableEq, Repr

/-- Environment oracle for a run: `fault n` is the error returned by the n-th
radio call (counting from the driver's `counter`), `readData n` the payload a
successful `ReadPayload` yields at call n (`none` is a nil payload),
`decode` the external OpenThings decoder, and `cancelled i` whether the
context is done when loop iteration i polls it. -/
structure Env where
  fault : Nat → Option GoError
  readData : Nat → Option (List Nat)
  decode : List Nat → Option Nat × Option GoError
  cancelled : Nat → Bool

/-- One call into the transceiver: consumes one fault-injection slot, records
the action, and applies the register effect when the call succeeds. -/
def radioCall (env : Env) (op : Act) (s : DState) : Option GoError × DState :=
  match env.fault s.counter with
  | some e => (some e, { s with counter := s.counter + 1, trace := s.trace ++ [op] })
  | none =>
    (none,
      { s with
        counter := s.counter + 1
        trace := s.trace ++ [op]
        radio := applyOp op s.radio })

/-- An indicator write (`SetLED`); never consulted for errors by the paths the
claims cover, so it only extends the trace. -/
def ledCall (led : Nat) (state : Bool) (s : DState) : DState :=
  { s with trace := s.trace ++ [Act.setLED led state] }

/-- Embedding of `emitMessage`: publish an event on the bus. -/
def emitMessage (s : DState) (ts message : Nat) (reason : Option GoError) : DState :=
  { s with events := s.events ++ [⟨ts, message, reason⟩] }

/-- An error reported through the logger instead of being returned. -/
def logError (s : DState) (e : GoError) : DState :=
  { s with logged := s.logged ++ [e] }

/-- Run a fixed sequence of radio calls, aborting on the first failing call
and returning its error (the shape of `setOOKMode`/`setFSKMode`). -/
def runOps (env : Env) : List Act → DState → Option GoError × DState
  | [], s => (none, s)
  | op :: ops, s =>
    match radioCall env op s with
    | (some e, s') => (some e, s')
    | (none, s') => runOps env ops s'

/-- The OOK (control) configuration sequence of `setOOKMode`, in source
order. -/
def ookModeOps : List Act :=
  [Act.setMode RFMMode.standby,
   Act.setModulation RFMModulation.ook,
   Act.setSequencer true,
   Act.setBitrate 4800,
   Act.setFreqCarrier 433920000,
   Act.setFreqDeviation 0,
   Act.setAFCMode RFM_AFCMODE_OFF,
   Act.setDataMode RFM_DATAMODE_PACKET,
   Act.setPacketFormat RFM_PACKET_FORMAT_VARIABLE,
   Act.setPacketCoding RFM_PACKET_CODING_NONE,
   Act.setPacketFilter RFM_PACKET_FILTER_NONE,
   Act.setPacketCRC RFM_PACKET_CRC_OFF,
   Act.setPreambleSize 0,
   Act.setPayloadSize 0,
   Act.setSyncWord none,
   Act.setAESKey none,
   Act.setFIFOThreshold 1]

/-- The FSK (monitor) configuration sequence of `setFSKMode`, in source
order. -/
def fskModeOps : List Act :=
  [Act.setMode RFMMode.standby,
   Act.setModulation RFMModulation.fsk,
   Act.setSequencer true,
   Act.setBitrate 4800,
   Act.setFreqCarrier 434300000,
   Act.setFreqDeviation 30000,
   Act.setAFCMode RFM_AFCMODE_OFF,
   Act.setAFCRoutine RFM_AFCROUTINE_STANDARD,
   Act.setLNA RFM_LNA_IMPEDANCE_50 RFM_LNA_GAIN_AUTO,
   Act.setRXFilter RFM_RXBW_FREQUENCY_FSK_62P5 RFM_RXBW_CUTOFF_4,
   Act.setDataMode RFM_DATAMODE_PACKET,
   Act.setPacketFormat RFM_PACKET_FORMAT_VARIABLE,
   Act.setPacketCoding RFM_PACKET_CODING_MANCHESTER,
   Act.setPacketFilter RFM_PACKET_FILTER_NONE,
   Act.setPacketCRC RFM_PACKET_CRC_OFF,
   Act.setPreambleSize 3,
   Act.setPayloadSize 0x40,
   Act.setSyncWord (some [0x2D, 0xD4]),
   Act.setSyncTolerance 0,
   Act.setNodeAddress 0x04,
   Act.setBroadcastAddress 0xFF,
   Act.setAESKey none,
   Act.setFIFOThreshold 1]

/-- Embedding of `setOOKMode`. -/
def setOOKMode (env : Env) (s : DState) : Option GoError × DState :=
  runOps env ookModeOps s

/-- Embedding of `setFSKMode`. -/
def setFSKMode (env : Env) (s : DState) : Option GoError × DState :=
  runOps env fskModeOps s

/-- Embedding of `SendControl`: parameter checks, payload encoding, then
either the mode-change branch (run the OOK sequence and update the logical
mode) or the transmit branch (mode TX, sequencer on, TX LED bracketed payload
write).  The else-if chain of the source is reproduced exactly: the
mode-change branch falls through to the success return without writing the
payload. -/
def sendControl (env : Env) (s : DState) (cid : Option (List Nat)) (cmd : Nat) (rep : Nat) :
    Option GoError × DState :=
  if rep = 0 ∨ cid = none then (some GoError.badParameter, s)
  else
    match encodeCommandPayload cid cmd with
    | Except.error e => (some e, s)
    | Except.ok payload =>
      if s.radio.modulation ≠ RFMModulation.ook ∨ s.mode ≠ MiHomeMode.control then
        match setOOKMode env s with
        | (some e, s') => (some e, s')
        | (none, s') => (none, { s' with mode := MiHomeMode.control })
      else
        match radioCall env (Act.setMode RFMMode.tx) s with
        | (some e, s') => (some e, s')
        | (none, s') =>
          match radioCall env (Act.setSequencer true) s' with
          | (some e, s2) => (some e, s2)
          | (none, s2) =>
            let s3 := ledCall LED_TX true s2
            match radioCall env (Act.writePayload payload rep) s3 with
            | (some e, s4) => (some e, ledCall LED_TX false s4)
            | (none, s4) => (none, ledCall LED_TX false s4)

/-- Embedding of `onCommandForSocket`. -/
def onCommandForSocket (socket : Nat) : Nat × Option GoError :=
  if socket = 1 then (OOK_ON_1, none)
  else if socket = 2 then (OOK_ON_2, none)
  else if socket = 3 then (OOK_ON_3, none)
  else if socket = 4 then (OOK_ON_4, none)
  else (OOK_NONE, some GoError.badParameter)

/-- Embedding of `offCommandForSocket`. -/
def offCommandForSocket (socket : Nat) : Nat × Option GoError :=
  if socket = 1 then (OOK_OFF_1, none)
  else if socket = 2 then (OOK_OFF_2, none)
  else if socket = 3 then (OOK_OFF_3, none)
  else if socket = 4 then (OOK_OFF_4, none)
  else (OOK_NONE, some GoError.badParameter)

/-- The per-socket iteration of `On`: resolve the command for the socket at
its turn, then send it; the first failure of either step returns. -/
def onLoop (env : Env) : List Nat → DState → Option GoError × DState
  | [], s => (none, s)
  | socket :: rest, s =>
    match onCommandForSocket socket with
    | (_, some e) => (some e, s)
    | (cmd, none) =>
      match sendControl env s s.cid cmd s.rep with
      | (some e, s') => (some e, s')
      | (none, s') => onLoop env rest s'

/-- Embedding of `On`: no arguments means the dedicated all-on command,
otherwise the sockets are processed one at a time in list order. -/
def mihomeOn (env : Env) (s : DState) (sockets : List Nat) : Option GoError × DState :=
  match sockets with
  | [] => sendControl env s s.cid OOK_ON_ALL s.rep
  | _ :: _ => onLoop env sockets s

/-- The per-socket iteration of `Off`. -/
def offLoop (env : Env) : List Nat → DState → Option GoError × DState
  | [], s => (none, s)
  | socket :: rest, s =>
    match offCommandForSocket socket with
    | (_, some e) => (some e, s)
    | (cmd, none) =>
      match sendControl env s s.cid cmd s.rep with
      | (some e, s') => (some e, s')
      | (none, s') => offLoop env rest s'

/-- Embedding of `Off`. -/
def mihomeOff (env : Env) (s : DState) (sockets : List Nat) : Option GoError × DState :=
  match sockets with
  | [] => sendControl env s s.cid OOK_OFF_ALL s.rep
  | _ :: _ => offLoop env sockets s

/-- Outcome of the polling loop: context cancellation, a fatal read error, or
exhaustion of the step budget (an artifact of the embedding; the Go loop would
simply still be running). -/
inductive LoopOutcome
  | cancelled
  | failed (e : GoError)
  | fuelOut
deriving DecidableEq, Repr

/-- Embedding of `radio.ReadPayload(ctx)`: one radio call whose data, on
success, is supplied by the environment (a `none` payload is Go's nil). -/
def readPayloadCall (env : Env) (s : DState) : Option GoError × Option (List Nat) × DState :=
  let data := env.readData s.counter
  match radioCall env Act.readPayload s with
  | (some e, s') => (some e, none, s')
  | (none, s') => (none, data, s')

/-- Body of the loop for a non-nil payload read at iteration `i`: RX LED on,
decode, publish when the decoder yields a message, clear the FIFO when it also
reported a failure (logging, not returning, a clear failure), RX LED off. -/
def handleData (env : Env) (i : Nat) (d : List Nat) (s : DState) : DState :=
  let s1 := ledCall LED_RX true s
  let dec := env.decode d
  let s2 :=
    match dec.1 with
    | none => s1
    | some m =>
      let sE := emitMessage s1 i m dec.2
      match dec.2 with
      | none => sE
      | some _ =>
        match radioCall env Act.clearFIFO sE with
        | (some e2, sF) => logError sF e2
        | (none, sF) => sF
  ledCall LED_RX false s2

/-- The polling loop of `Receive`: at each iteration check the context, then
read a payload; a read error is fatal, a nil payload loops, data is handled by
`handleData`. -/
def receiveLoop (env : Env) : Nat → Nat → DState → LoopOutcome × DState
  | 0, _, s => (LoopOutcome.fuelOut, s)
  | fuel + 1, i, s =>
    if env.cancelled i then (LoopOutcome.cancelled, s)
    else
      match readPayloadCall env s with
      | (some e, _, s') => (LoopOutcome.failed e, s')
      | (none, none, s') => receiveLoop env fuel (i + 1) s'
      | (none, some d, s') => receiveLoop env fuel (i + 1) (handleData env i d s')

/-- The part of `Receive` before the loop: ensure FSK/monitor mode (running
the FSK sequence only on an actual mode change, updating the logical mode only
on success), then switch into RX mode, or clear the FIFO when already
receiving. -/
def receivePreamble (env : Env) (s : DState) : Option GoError × DState :=
  let arm : DState → Option GoError × DState := fun s2 =>
    if s2.radio.opmode ≠ RFMMode.rx then
      radioCall env (Act.setMode RFMMode.rx) s2
    else
      radioCall env Act.clearFIFO s2
  if s.radio.modulation ≠ RFMModulation.fsk ∨ s.mode ≠ MiHomeMode.monitor then
    match setFSKMode env s with
    | (some e, s') => (some e, s')
    | (none, s') => arm { s' with mode := MiHomeMode.monitor }
  else arm s

/-- Embedding of `Receive`: only MONITOR is supported; after the preamble the
loop runs until cancellation (success) or a fatal read error (returned). -/
def mihomeReceive (env : Env) (fuel : Nat) (mode : MiHomeMode) (s : DState) :
    Option GoError × DState :=
  if mode ≠ MiHomeMode.monitor then (some GoError.notImplemented, s)
  else
    match receivePreamble env s with
    | (some e, s') => (some e, s')
    | (none, s') =>
      match receiveLoop env fuel 0 s' with
      | (LoopOutcome.cancelled, s2) => (none, s2)
      | (LoopOutcome.failed e, s2) => (some e, s2)
      | (LoopOutcome.fuelOut, s2) => (none, s2)

/-- Count of modulation-setting calls in a trace; each run of either
configuration sequence contributes exactly one. -/
def isModulationSet (a : Act) : Bool :=
  match a with
  | Act.setModulation _ => true
  | _ => false

/-- Number of configuration sequences started in a trace. -/
def configCount (tr : List Act) : Nat :=
  tr.countP isModulationSet

/-- Recognizer for payload transmissions in a trace. -/
def isWrite (a : Act) : Bool :=
  match a with
  | Act.writePayload _ _ => true
  | _ => false

/-- Recognizer for FIFO clears in a trace. -/
def isClear (a : Act) : Bool :=
  match a with
  | Act.clearFIFO => true
  | _ => false

/-- Fault-free environment whose context is already cancelled and whose reads
return nil payloads. -/
def envIdle : Env :=
  { fault := fun _ => none
    readData := fun _ => none
    decode := fun _ => (none, none)
    cancelled := fun _ => true }

/-- A freshly opened driver: logical mode NONE, radio in standby with FSK
modulation, the default device address `0x06C6C6` and repeat count 8. -/
def freshState : DState :=
  { mode := MiHomeMode.unset
    radio := ⟨RFMMode.standby, RFMModulation.fsk⟩
    cid := some [0x06, 0xC6, 0xC6]
    rep := 8
    counter := 0
    trace := []
    events := []
    logged := [] }

/-- Environment delivering one frame whose decode yields no message but a
failure, then cancelling. -/
def envDecodeFail : Env :=
  { fault := fun _ => none
    readData := fun n => if n = 0 then some [1] else none
    decode := fun _ => (none, some (GoError.transport 3))
    cancelled := fun i => decide (1 ≤ i) }

/-- A driver already in monitor mode and actively receiving. -/
def monitorState : DState :=
  { mode := MiHomeMode.monitor
    radio := ⟨RFMMode.rx, RFMModulation.fsk⟩
    cid := none
    rep := 0
    counter := 0
    trace := []
    events := []
    logged := [] }

/-- Environment whose third radio call fails with a transceiver error. -/
def envFaultAt2 : Env :=
  { fault := fun n => if n = 2 then some (GoError.transport 7) else none
    readData := fun _ => none
    decode := fun _ => (none, none)
    cancelled := fun _ => true }

/-- Environment whose first radio call fails, with no cancellation. -/
def envReadFault0 : Env :=
  { fault := fun n => if n = 0 then some (GoError.transport 9) else none
    readData := fun _ => none
    decode := fun _ => (none, none)
    cancelled := fun _ => false }

/-- Environment whose 25th radio call (the first payload read after the
23-step FSK sequence and the RX switch) fails, with no cancellation. -/
def envReadFault24 : Env :=
  { fault := fun n => if n = 24 then some (GoError.transport 9) else none
    readData := fun _ => none
    decode := fun _ => (none, none)
    cancelled := fun _ => false }

/-- Environment delivering one frame whose decode yields a message together
with a failure. -/
def envDecodeMsgFail : Env :=
  { fault := fun _ => none
    readData := fun n => if n = 0 then some [2] else none
    decode := fun _ => (some 5, some (GoError.transport 4))
    cancelled := fun _ => false }

/-- Every encoded byte occupies exactly 4 output bytes. -/
theorem encodeByte_length (v : Nat) : (encodeByte v).length = 4 := rfl

/-- The fold inside `encodeByteArray` grows its accumulator by 4 bytes per input byte. -/
theorem encodeFold_length (l : List Nat) :
    ∀ init : List Nat,
      (l.foldl (fun acc x => acc ++ encodeByte x) init).length = init.length + 4 * l.length := by
  induction l with
  | nil => intro init; simp
  | cons x xs ih =>
    intro init
    simp only [List.foldl_cons]
    rw [ih]
    simp [encodeByte_length]
    omega

/-- A configuration sequence that succeeds records exactly its operations, advances the fault counter by its length, applies all register effects, and touches neither the logical mode nor the events, log, address or repeat fields. -/
theorem runOps_ok (env : Env) :
    ∀ (ops : List Act) (s s' : DState), runOps env ops s = (none, s') →
      s'.trace = s.trace ++ ops ∧ s'.counter = s.counter + ops.length ∧
      s'.radio = ops.foldl (fun r op => applyOp op r) s.radio ∧
      s'.mode = s.mode ∧ s'.events = s.events ∧ s'.logged = s.logged ∧
      s'.cid = s.cid ∧ s'.rep = s.rep := by
  intro ops
  induction ops with
  | nil => intro s s' h; simp [runOps] at h; subst h; simp
  | cons op ops ih =>
    intro s s' h
    simp only [runOps, radioCall] at h
    cases hf : env.fault s.counter with
    | some e => rw [hf] at h; simp at h
    | none =>
      rw [hf] at h
      simp only at h
      have := ih _ _ h
      simp only at this
      simp [this]
      omega

/-- A configuration sequence that fails does so at the first faulting call: the failing call's error is returned, the trace extends by exactly the operations up to and including the failing one, and the logical mode, events, log, address and repeat fields are untouched. -/
theorem runOps_err (env : Env) :
    ∀ (ops : List Act) (s s' : DState) (e : GoError), runOps env ops s = (some e, s') →
      ∃ j, j < ops.length ∧ env.fault (s.counter + j) = some e ∧
        s'.trace = s.trace ++ ops.take (j + 1) ∧
        s'.counter = s.counter + j + 1 ∧
        s'.mode = s.mode ∧ s'.events = s.events ∧ s'.logged = s.logged ∧
        s'.cid = s.cid ∧ s'.rep = s.rep := by
  intro ops
  induction ops with
  | nil => intro s s' e h; simp [runOps] at h
  | cons op ops ih =>
    intro s s' e h
    simp only [runOps, radioCall] at h
    cases hf : env.fault s.counter with
    | some e0 =>
      rw [hf] at h
      simp only [Prod.mk.injEq] at h
      obtain ⟨he, hs⟩ := h
      refine ⟨0, by simp, ?_, ?_⟩
      · rw [Nat.add_zero, hf, he]
      · subst hs; simp
    | none =>
      rw [hf] at h
      simp only at h
      obtain ⟨j, hj, hfj, htr, hct, hrest⟩ := ih _ _ _ h
      refine ⟨j + 1, by simpa using Nat.succ_lt_succ hj, ?_, ?_, ?_, ?_⟩
      · simpa [Nat.add_assoc, Nat.add_comm 1 j] using hfj
      · simpa [List.append_assoc] using htr
      · simp at hct; omega
      · simpa using hrest

/-- Register effect of a completed OOK sequence: standby mode, OOK modulation. -/
theorem ookOps_radio (r : RadioState) :
    ookModeOps.foldl (fun r op => applyOp op r) r =
      ⟨RFMMode.standby, RFMModulation.ook⟩ := rfl

/-- Register effect of a completed FSK sequence: standby mode, FSK modulation. -/
theorem fskOps_radio (r : RadioState) :
    fskModeOps.foldl (fun r op => applyOp op r) r =
      ⟨RFMMode.standby, RFMModulation.fsk⟩ := rfl

/-- The OOK sequence contains exactly one modulation write. -/
theorem ookOps_config : configCount ookModeOps = 1 := rfl

/-- The FSK sequence contains exactly one modulation write. -/
theorem fskOps_config : configCount fskModeOps = 1 := rfl

/-- Configuration-start counting distributes over trace concatenation. -/
theorem configCount_append (a b : List Act) :
    configCount (a ++ b) = configCount a + configCount b := by
  simp [configCount, List.countP_append]

/-- A successful `SendControl` that needed a mode change ran exactly the OOK sequence, set the logical mode to CONTROL, and emitted nothing else. -/
theorem sendControl_config_ok (env : Env) (s : DState) (cid : Option (List Nat))
    (cmd rep : Nat) (s₁ : DState)
    (hguard : s.radio.modulation ≠ RFMModulation.ook ∨ s.mode ≠ MiHomeMode.control)
    (h : sendControl env s cid cmd rep = (none, s₁)) :
    s₁.mode = MiHomeMode.control ∧
    s₁.radio = ⟨RFMMode.standby, RFMModulation.ook⟩ ∧
    s₁.trace = s.trace ++ ookModeOps ∧
    s₁.events = s.events ∧ s₁.cid = s.cid ∧ s₁.rep = s.rep := by
  unfold sendControl at h
  by_cases hbad : rep = 0 ∨ cid = none
  · rw [if_pos hbad] at h; simp at h
  · rw [if_neg hbad] at h
    cases hE : encodeCommandPayload cid cmd with
    | error e => rw [hE] at h; simp at h
    | ok payload =>
      rw [hE] at h
      simp only at h
      rw [if_pos hguard] at h
      cases hO : setOOKMode env s with
      | mk eo so =>
        rw [hO] at h
        cases eo with
        | some e => simp at h
        | none =>
          simp only [Prod.mk.injEq, true_and] at h
          subst h
          have := runOps_ok env ookModeOps s so (by simpa [setOOKMode] using hO)
          obtain ⟨htr, hct, hrad, hmode, hev, hlog, hcid, hrep⟩ := this
          refine ⟨rfl, ?_, ?_, ?_, ?_, ?_⟩ <;>
            simp [hrad, ookOps_radio, htr, hev, hcid, hrep]

/-- A successful `SendControl` in CONTROL/OOK state re-arms transmit and writes the encoded payload, adding no configuration operations. -/
theorem sendControl_tx_ok (env : Env) (s : DState) (cid : Option (List Nat))
    (cmd rep : Nat) (s₂ : DState)
    (hmod : s.radio.modulation = RFMModulation.ook) (hmode : s.mode = MiHomeMode.control)
    (h : sendControl env s cid cmd rep = (none, s₂)) :
    ∃ payload, encodeCommandPayload cid cmd = Except.ok payload ∧
      s₂.trace = s.trace ++
        [Act.setMode RFMMode.tx, Act.setSequencer true, Act.setLED LED_TX true,
         Act.writePayload payload rep, Act.setLED LED_TX false] ∧
      s₂.events = s.events ∧ s₂.mode = s.mode ∧
      s₂.radio.modulation = RFMModulation.ook := by
  unfold sendControl at h
  by_cases hbad : rep = 0 ∨ cid = none
  · rw [if_pos hbad] at h; simp at h
  · rw [if_neg hbad] at h
    cases hE : encodeCommandPayload cid cmd with
    | error e => rw [hE] at h; simp at h
    | ok payload =>
      rw [hE] at h
      simp only at h
      rw [if_neg (by simp [hmod, hmode])] at h
      refine ⟨payload, rfl, ?_⟩
      simp only [radioCall] at h
      cases h1 : env.fault s.counter with
      | some e => rw [h1] at h; simp at h
      | none =>
        rw [h1] at h
        simp only at h
        cases h2 : env.fault (s.counter + 1) with
        | some e => rw [h2] at h; simp at h
        | none =>
          rw [h2] at h
          simp only [ledCall] at h
          cases h3 : env.fault (s.counter + 1 + 1) with
          | some e => rw [h3] at h; simp at h
          | none =>
            rw [h3] at h
            simp only [Prod.mk.injEq, true_and] at h
            subst h
            simp [applyOp, hmod, hmode]

/-- A payload read records one action, bumps the fault counter, and leaves every other driver field unchanged. -/
theorem readPayloadCall_state (env : Env) (s : DState) :
    (readPayloadCall env s).2.2.trace = s.trace ++ [Act.readPayload] ∧
    (readPayloadCall env s).2.2.radio = s.radio ∧
    (readPayloadCall env s).2.2.mode = s.mode ∧
    (readPayloadCall env s).2.2.events = s.events ∧
    (readPayloadCall env s).2.2.logged = s.logged ∧
    (readPayloadCall env s).2.2.counter = s.counter + 1 := by
  unfold readPayloadCall radioCall
  cases hf : env.fault s.counter <;> simp [hf, applyOp]

/-- Handling one received frame never changes the read-back registers, the logical mode, or the number of configuration sequences in the trace. -/
theorem handleData_inv (env : Env) (i : Nat) (d : List Nat) (s : DState) :
    configCount (handleData env i d s).trace = configCount s.trace ∧
    (handleData env i d s).radio = s.radio ∧
    (handleData env i d s).mode = s.mode := by
  unfold handleData
  cases hm : (env.decode d).1 with
  | none =>
    simp [hm, ledCall, configCount_append, configCount, isModulationSet]
  | some m =>
    cases hr : (env.decode d).2 with
    | none =>
      simp [hm, hr, ledCall, emitMessage, configCount_append, configCount, isModulationSet]
    | some e =>
      simp only [hm, hr, ledCall, emitMessage, radioCall]
      cases hf : env.fault s.counter <;>
        simp [hf, logError, configCount_append, configCount, isModulationSet, applyOp]

/-- The polling loop never reconfigures the radio: registers, logical mode and configuration count are invariant. -/
theorem receiveLoop_inv (env : Env) :
    ∀ fuel i s,
      configCount ((receiveLoop env fuel i s).2).trace = configCount s.trace ∧
      ((receiveLoop env fuel i s).2).radio = s.radio ∧
      ((receiveLoop env fuel i s).2).mode = s.mode := by
  intro fuel
  induction fuel with
  | zero => intro i s; simp [receiveLoop]
  | succ fuel ih =>
    intro i s
    unfold receiveLoop
    by_cases hc : env.cancelled i
    · simp [hc]
    · rcases hrp : readPayloadCall env s with ⟨eOpt, dOpt, s'⟩
      have hfacts := readPayloadCall_state env s
      rw [hrp] at hfacts
      simp only [Prod.snd] at hfacts
      obtain ⟨htr, hrad, hmode, -, -, -⟩ := hfacts
      have htrc : configCount s'.trace = configCount s.trace := by
        rw [htr]; simp [configCount_append, configCount, isModulationSet]
      cases eOpt with
      | some e => simp [hc, hrp, htrc, hrad, hmode]
      | none =>
        cases dOpt with
        | none =>
          obtain ⟨i1, i2, i3⟩ := ih (i + 1) s'
          simp [hc, hrp, i1, i2, i3, htrc, hrad, hmode]
        | some d =>
          obtain ⟨d1, d2, d3⟩ := handleData_inv env i d s'
          obtain ⟨i1, i2, i3⟩ := ih (i + 1) (handleData env i d s')
          simp [hc, hrp, i1, i2, i3, d1, d2, d3, htrc, hrad, hmode]

/-- A successful pre-loop phase that needed a mode change ran the FSK sequence, switched to RX, set the logical mode to MONITOR, and published nothing. -/
theorem receivePreamble_config_ok (env : Env) (s s₀ : DState)
    (hguard : s.radio.modulation ≠ RFMModulation.fsk ∨ s.mode ≠ MiHomeMode.monitor)
    (h : receivePreamble env s = (none, s₀)) :
    s₀.mode = MiHomeMode.monitor ∧
    s₀.radio = ⟨RFMMode.rx, RFMModulation.fsk⟩ ∧
    s₀.trace = s.trace ++ fskModeOps ++ [Act.setMode RFMMode.rx] ∧
    s₀.events = s.events := by
  simp only [receivePreamble] at h
  rw [if_pos hguard] at h
  cases hF : setFSKMode env s with
  | mk eo so =>
    rw [hF] at h
    cases eo with
    | some e => simp at h
    | none =>
      obtain ⟨htr, hct, hrad, hmode, hev, -, -, -⟩ :=
        runOps_ok env fskModeOps s so (by simpa [setFSKMode] using hF)
      rw [fskOps_radio] at hrad
      simp only at h
      rw [if_pos (by simp [hrad])] at h
      simp only [radioCall] at h
      cases hf2 : env.fault so.counter with
      | some e => rw [hf2] at h; simp at h
      | none =>
        rw [hf2] at h
        simp only [Prod.mk.injEq, true_and] at h
        subst h
        simp [applyOp, hrad, htr, hev]

/-- A successful pre-loop phase in MONITOR/FSK/RX state only clears the FIFO. -/
theorem receivePreamble_skip_ok (env : Env) (s s₀ : DState)
    (hmod : s.radio.modulation = RFMModulation.fsk) (hmode : s.mode = MiHomeMode.monitor)
    (hrx : s.radio.opmode = RFMMode.rx)
    (h : receivePreamble env s = (none, s₀)) :
    s₀.trace = s.trace ++ [Act.clearFIFO] ∧ s₀.mode = s.mode ∧
    s₀.radio = s.radio ∧ s₀.events = s.events := by
  simp only [receivePreamble] at h
  rw [if_neg (by simp [hmod, hmode])] at h
  rw [if_neg (by simp [hrx])] at h
  simp only [radioCall] at h
  cases hf : env.fault s.counter with
  | some e => rw [hf] at h; simp at h
  | none =>
    rw [hf] at h
    simp only [Prod.mk.injEq, true_and] at h
    subst h
    simp [applyOp]

/-- A successful `Receive` needing a mode change issues exactly one configuration sequence and leaves the driver in MONITOR/RX/FSK state. -/
theorem mihomeReceive_config_ok (env : Env) (fuel : Nat) (s s₁ : DState)
    (hguard : s.radio.modulation ≠ RFMModulation.fsk ∨ s.mode ≠ MiHomeMode.monitor)
    (h : mihomeReceive env fuel MiHomeMode.monitor s = (none, s₁)) :
    configCount s₁.trace = configCount s.trace + 1 ∧
    s₁.mode = MiHomeMode.monitor ∧ s₁.radio = ⟨RFMMode.rx, RFMModulation.fsk⟩ := by
  simp only [mihomeReceive, if_neg (by simp : ¬MiHomeMode.monitor ≠ MiHomeMode.monitor)] at h
  split at h
  · simp at h
  · rename_i sp hP
    obtain ⟨pm, prad, ptr, -⟩ := receivePreamble_config_ok env s sp hguard hP
    obtain ⟨l1, l2, l3⟩ := receiveLoop_inv env fuel 0 sp
    have hcfg : configCount sp.trace = configCount s.trace + 1 := by
      rw [ptr, configCount_append, configCount_append, fskOps_config]
      simp [configCount, isModulationSet]
    split at h
    · rename_i sl hL
      rw [hL] at l1 l2 l3
      simp only [Prod.mk.injEq, true_and] at h
      subst h
      simp only at l1 l2 l3
      rw [l1, l2, l3, hcfg]
      exact ⟨rfl, pm, prad⟩
    · simp at h
    · rename_i sl hL
      rw [hL] at l1 l2 l3
      simp only [Prod.mk.injEq, true_and] at h
      subst h
      simp only at l1 l2 l3
      rw [l1, l2, l3, hcfg]
      exact ⟨rfl, pm, prad⟩

/-- A successful `Receive` from MONITOR/RX/FSK state issues no configuration sequence and preserves mode and registers. -/
theorem mihomeReceive_skip_ok (env : Env) (fuel : Nat) (s s₁ : DState)
    (hmod : s.radio.modulation = RFMModulation.fsk) (hmode : s.mode = MiHomeMode.monitor)
    (hrx : s.radio.opmode = RFMMode.rx)
    (h : mihomeReceive env fuel MiHomeMode.monitor s = (none, s₁)) :
    configCount s₁.trace = configCount s.trace ∧
    s₁.mode = s.mode ∧ s₁.radio = s.radio := by
  simp only [mihomeReceive, if_neg (by simp : ¬MiHomeMode.monitor ≠ MiHomeMode.monitor)] at h
  split at h
  · simp at h
  · rename_i sp hP
    obtain ⟨ptr, pm, prad, -⟩ := receivePreamble_skip_ok env s sp hmod hmode hrx hP
    obtain ⟨l1, l2, l3⟩ := receiveLoop_inv env fuel 0 sp
    have hcfg : configCount sp.trace = configCount s.trace := by
      rw [ptr, configCount_append]
      simp [configCount, isModulationSet]
    split at h
    · rename_i sl hL
      rw [hL] at l1 l2 l3
      simp only [Prod.mk.injEq, true_and] at h
      subst h
      simp only at l1 l2 l3
      rw [l1, l2, l3, hcfg]
      exact ⟨rfl, pm, prad⟩
    · simp at h
    · rename_i sl hL
      rw [hL] at l1 l2 l3
      simp only [Prod.mk.injEq, true_and] at h
      subst h
      simp only at l1 l2 l3
      rw [l1, l2, l3, hcfg]
      exact ⟨rfl, pm, prad⟩

/-- Configuration sequences publish no events. -/
theorem runOps_events (env : Env) : ∀ (ops : List Act) (s : DState),
    ((runOps env ops s).2).events = s.events := by
  intro ops
  induction ops with
  | nil => intro s; rfl
  | cons op ops ih =>
    intro s
    simp only [runOps, radioCall]
    cases hf : env.fault s.counter with
    | some e => simp
    | none => simpa using ih _

/-- A single radio call publishes no events. -/
theorem radioCall_events (env : Env) (op : Act) (s : DState) :
    ((radioCall env op s).2).events = s.events := by
  unfold radioCall
  cases hf : env.fault s.counter <;> simp

/-- The pre-loop phase of `Receive` publishes no events. -/
theorem receivePreamble_events (env : Env) (s : DState) :
    ((receivePreamble env s).2).events = s.events := by
  simp only [receivePreamble]
  split
  · split
    · rename_i e s' hF
      have h := runOps_events env fskModeOps s
      rw [show runOps env fskModeOps s = (some e, s') from hF] at h
      simpa using h
    · rename_i s' hF
      have h := runOps_events env fskModeOps s
      rw [show runOps env fskModeOps s = (none, s') from hF] at h
      simp only at h
      split
      · rw [radioCall_events]; simpa using h
      · rw [radioCall_events]; simpa using h
  · split
    · rw [radioCall_events]
    · rw [radioCall_events]

/-- Once the loop has terminated by cancellation or by a read error, granting it any larger step budget changes nothing: same outcome, same state, no further events. -/
theorem receiveLoop_stable (env : Env) :
    ∀ (fuel k i : Nat) (s : DState) (out : LoopOutcome) (s' : DState),
      receiveLoop env fuel i s = (out, s') → out ≠ LoopOutcome.fuelOut →
      receiveLoop env (fuel + k) i s = (out, s') := by
  intro fuel
  induction fuel with
  | zero =>
    intro k i s out s' h hout
    simp only [receiveLoop, Prod.mk.injEq] at h
    exact absurd h.1.symm hout
  | succ fuel ih =>
    intro k i s out s' h hout
    have hshift : fuel + 1 + k = (fuel + k) + 1 := by omega
    rw [hshift]
    rw [receiveLoop] at h ⊢
    by_cases hc : env.cancelled i
    · simpa [hc] using h
    · simp only [hc, Bool.false_eq_true, if_false] at h ⊢
      rcases hrp : readPayloadCall env s with ⟨eOpt, dOpt, sR⟩
      rw [hrp] at h
      cases eOpt with
      | some e => exact h
      | none =>
        cases dOpt with
        | none => exact ih k (i + 1) sR out s' h hout
        | some d => exact ih k (i + 1) (handleData env i d sR) out s' h hout

/-- Claim C1 (code bug): on a fresh driver, `SendControl` with a non-nil 3-byte address and repeat 8 returns success after merely running the OOK configuration sequence — the trace is exactly the configuration, containing no TX re-arm and no payload write; only a second call actually transmits.  The else-if chain of the source skips the transmit branch whenever the mode-change branch ran. -/
theorem C1_first_send_after_mode_change_transmits_nothing :
    (sendControl envIdle freshState (some [0x06, 0xC6, 0xC6]) OOK_ON_ALL 8).1 = none ∧
    (sendControl envIdle freshState (some [0x06, 0xC6, 0xC6]) OOK_ON_ALL 8).2.trace = ookModeOps ∧
    List.countP isWrite ookModeOps = 0 ∧
    List.countP isWrite
      ((sendControl envIdle
        ((sendControl envIdle freshState (some [0x06, 0xC6, 0xC6]) OOK_ON_ALL 8).2)
        (some [0x06, 0xC6, 0xC6]) OOK_ON_ALL 8).2.trace) = 1 := by
  decide

/-- Claim C2, counterexample: a successfully read non-empty payload whose decode reports a non-nil failure but no message leads to no FIFO clear at all — the FIFO is cleared only when the decoder also returned a message, refuting the claim as stated. -/
theorem C2_decode_failure_without_message_no_fifo_clear :
    (envDecodeFail.decode [1]).2 = some (GoError.transport 3) ∧
    envDecodeFail.readData 0 = some [1] ∧
    (receiveLoop envDecodeFail 2 0 monitorState).1 = LoopOutcome.cancelled ∧
    (receiveLoop envDecodeFail 2 0 monitorState).2.trace =
      [Act.readPayload, Act.setLED LED_RX true, Act.setLED LED_RX false] ∧
    List.countP isClear ((receiveLoop envDecodeFail 2 0 monitorState).2.trace) = 0 := by
  decide

/-- Claim C2 (amended): for every successfully read non-empty payload whose decode returns a non-nil message, an event carrying the timestamp, message and nullable failure is published and the loop continues; when the failure is also non-nil the FIFO is cleared afterward, and a FIFO-clear error is logged, never propagated — the loop still continues with the same subsequent behaviour. -/
theorem C2_message_event_fifo_amended :
    ∀ (env : Env) (fuel i : Nat) (s : DState) (d : List Nat) (m : Nat) (rOpt : Option GoError),
      env.cancelled i = false →
      env.fault s.counter = none →
      env.readData s.counter = some d →
      env.decode d = (some m, rOpt) →
      ∃ s', receiveLoop env (fuel + 1) i s = receiveLoop env fuel (i + 1) s' ∧
        s'.events = s.events ++ [⟨i, m, rOpt⟩] ∧
        ((∃ r, rOpt = some r) →
          s'.trace = s.trace ++
            [Act.readPayload, Act.setLED LED_RX true, Act.clearFIFO, Act.setLED LED_RX false] ∧
          (∀ e2, env.fault (s.counter + 1) = some e2 → s'.logged = s.logged ++ [e2]) ∧
          (env.fault (s.counter + 1) = none → s'.logged = s.logged)) ∧
        (rOpt = none →
          s'.trace = s.trace ++
            [Act.readPayload, Act.setLED LED_RX true, Act.setLED LED_RX false] ∧
          s'.logged = s.logged) := by
  intro env fuel i s d m rOpt hc hf hd hdec
  refine ⟨handleData env i d { s with counter := s.counter + 1, trace := s.trace ++ [Act.readPayload], radio := applyOp Act.readPayload s.radio }, ?_, ?_, ?_, ?_⟩
  · simp [receiveLoop, hc, readPayloadCall, radioCall, hf, hd]
  · cases rOpt with
    | none => simp [handleData, hdec, emitMessage, ledCall]
    | some r =>
      simp only [handleData, hdec, emitMessage, ledCall, radioCall]
      cases hf2 : env.fault (s.counter + 1) <;> simp [logError]
  · rintro ⟨r, rfl⟩
    simp only [handleData, hdec, emitMessage, ledCall, radioCall]
    cases hf2 : env.fault (s.counter + 1) with
    | some e2 =>
      refine ⟨by simp [logError], ?_, ?_⟩
      · intro e3 he3
        cases he3
        simp [logError]
      · intro h0
        simp at h0
    | none =>
      refine ⟨by simp [logError], ?_, ?_⟩
      · intro e3 he3
        simp at he3
      · intro h0
        simp
  · rintro rfl
    simp [handleData, hdec, emitMessage, ledCall]

/-- Claim C3: starting outside the target mode, two consecutive successful `SendControl` calls issue the OOK configuration sequence exactly once — the second call re-applies no configuration — and likewise two consecutive successful `Receive` calls issue the FSK configuration sequence exactly once. -/
theorem C3_mode_transition_idempotent :
    (∀ (env : Env) (s : DState) (cid cid' : Option (List Nat)) (cmd rep cmd' rep' : Nat)
        (s₁ s₂ : DState),
      s.mode ≠ MiHomeMode.control →
      sendControl env s cid cmd rep = (none, s₁) →
      sendControl env s₁ cid' cmd' rep' = (none, s₂) →
      configCount s₁.trace = configCount s.trace + 1 ∧
      configCount s₂.trace = configCount s₁.trace) ∧
    (∀ (env : Env) (fuel fuel' : Nat) (s s₁ s₂ : DState),
      s.mode ≠ MiHomeMode.monitor →
      mihomeReceive env fuel MiHomeMode.monitor s = (none, s₁) →
      mihomeReceive env fuel' MiHomeMode.monitor s₁ = (none, s₂) →
      configCount s₁.trace = configCount s.trace + 1 ∧
      configCount s₂.trace = configCount s₁.trace) := by
  constructor
  · intro env s cid cid' cmd rep cmd' rep' s₁ s₂ hmode h1 h2
    obtain ⟨m1, r1, t1, -, -, -⟩ :=
      sendControl_config_ok env s cid cmd rep s₁ (Or.inr hmode) h1
    obtain ⟨p, -, t2, -, -, -⟩ :=
      sendControl_tx_ok env s₁ cid' cmd' rep' s₂ (by rw [r1]) m1 h2
    constructor
    · rw [t1, configCount_append, ookOps_config]
    · rw [t2, configCount_append]
      simp [configCount, isModulationSet]
  · intro env fuel fuel' s s₁ s₂ hmode h1 h2
    obtain ⟨c1, m1, r1⟩ := mihomeReceive_config_ok env fuel s s₁ (Or.inr hmode) h1
    obtain ⟨c2, -, -⟩ := mihomeReceive_skip_ok env fuel' s₁ s₂ (by rw [r1]) m1 (by rw [r1]) h2
    exact ⟨c1, c2⟩

/-- Claim C4: for every 3-byte address and every command byte `encodeCommandPayload` returns exactly 16 bytes — the 4-byte preamble, the last 10 bytes of the encoded address, the last 2 bytes of the encoded command — and for every address whose encoding is not 12 bytes (wrong length or nil) it fails with the internal-invariant error. -/
theorem C4_build_payload_shape :
    ∀ (cid : Option (List Nat)) (cmd : Nat),
      (∀ l, cid = some l → l.length = 3 →
        encodeCommandPayload cid cmd =
          Except.ok (OOK_PREAMBLE ++ (goBytes (encodeByteArray cid)).drop 2 ++
            (encodeByte cmd).drop 2) ∧
        ∀ p, encodeCommandPayload cid cmd = Except.ok p → p.length = 16) ∧
      (goLen cid ≠ 3 → encodeCommandPayload cid cmd = Except.error GoError.appError) := by
  intro cid cmd
  constructor
  · intro l hl h3
    subst hl
    have hlen : goLen (encodeByteArray (some l)) = 12 := by
      simp [encodeByteArray, goLen, encodeFold_length, h3]
    constructor
    · simp [encodeCommandPayload, encodeByte_length, hlen]
    · intro p hp
      simp [encodeCommandPayload, encodeByte_length, hlen] at hp
      have hgb : (goBytes (encodeByteArray (some l))).length = 12 := by
        simpa [goLen, goBytes] using hlen
      subst hp
      simp [OOK_PREAMBLE, List.length_drop, hgb, encodeByte_length]
  · intro hne
    match cid with
    | none => simp [encodeCommandPayload, encodeByteArray, goLen, encodeByte_length]
    | some l =>
      have : goLen (encodeByteArray (some l)) ≠ 12 := by
        simp [encodeByteArray, goLen, encodeFold_length]
        simp [goLen] at hne
        omega
      simp [encodeCommandPayload, encodeByte_length, this]

set_option maxRecDepth 8000 in
/-- Claim C5: for every byte, `encodeByte` yields exactly 4 bytes whose 8 nibbles encode the bits most-significant first (0 as 0x8, 1 as 0xE), and the inverse nibble mapping round-trips to the original byte. -/
theorem C5_encode_byte_bits_roundtrip :
    ∀ b : Fin 256,
      (encodeByte b.val).length = 4 ∧
      (∀ k : Fin 8,
        (nibbles (encodeByte b.val)).getD k.val 0 = ookNibbleOfBit (Nat.testBit b.val (7 - k.val))) ∧
      ookDecodeByte (encodeByte b.val) = some b.val := by
  decide

/-- Claim C6: the hex device-address string decodes (after left-zero-padding) to the 3-byte address 0x06C6C6, and building the ON_ALL payload for it yields the fixed deterministic 16-byte golden sequence. -/
theorem C6_golden_output :
    decodeHexString ("6C6C6") = Except.ok [0x06, 0xC6, 0xC6] ∧
    encodeCommandPayload (some [0x06, 0xC6, 0xC6]) OOK_ON_ALL =
      Except.ok [0x80, 0x00, 0x00, 0x00, 0x8E, 0xE8, 0xEE, 0x88,
                 0x8E, 0xE8, 0xEE, 0x88, 0x8E, 0xE8, 0xEE, 0x8E] :=
  ⟨rfl, rfl⟩

/-- Claim C7: a failing step of the OOK or FSK configuration sequence aborts the sequence at that step, propagates the underlying transceiver error verbatim to the `SendControl` or `Receive` caller, and leaves the logical mode field unchanged. -/
theorem C7_config_failure_aborts :
    (∀ (env : Env) (s : DState) (cid : Option (List Nat)) (cmd rep : Nat) (e : GoError)
        (s' : DState),
      rep ≠ 0 → cid ≠ none →
      (∃ p, encodeCommandPayload cid cmd = Except.ok p) →
      (s.radio.modulation ≠ RFMModulation.ook ∨ s.mode ≠ MiHomeMode.control) →
      setOOKMode env s = (some e, s') →
      sendControl env s cid cmd rep = (some e, s') ∧
      s'.mode = s.mode ∧
      ∃ j, j < ookModeOps.length ∧ env.fault (s.counter + j) = some e ∧
        s'.trace = s.trace ++ ookModeOps.take (j + 1)) ∧
    (∀ (env : Env) (fuel : Nat) (s : DState) (e : GoError) (s' : DState),
      (s.radio.modulation ≠ RFMModulation.fsk ∨ s.mode ≠ MiHomeMode.monitor) →
      setFSKMode env s = (some e, s') →
      mihomeReceive env fuel MiHomeMode.monitor s = (some e, s') ∧
      s'.mode = s.mode ∧
      ∃ j, j < fskModeOps.length ∧ env.fault (s.counter + j) = some e ∧
        s'.trace = s.trace ++ fskModeOps.take (j + 1)) := by
  constructor
  · intro env s cid cmd rep e s' hrep hcid hp0 hguard hO
    obtain ⟨p, hp⟩ := hp0
    obtain ⟨j, hj, hf, htr, -, hmode, -, -, -, -⟩ :=
      runOps_err env ookModeOps s s' e (by simpa [setOOKMode] using hO)
    refine ⟨?_, hmode, j, hj, hf, htr⟩
    unfold sendControl
    rw [if_neg (by simp [hrep, hcid])]
    rw [hp]
    simp only
    rw [if_pos hguard, hO]
  · intro env fuel s e s' hguard hF
    obtain ⟨j, hj, hf, htr, -, hmode, -, -, -, -⟩ :=
      runOps_err env fskModeOps s s' e (by simpa [setFSKMode] using hF)
    refine ⟨?_, hmode, j, hj, hf, htr⟩
    unfold mihomeReceive
    rw [if_neg (by simp : ¬MiHomeMode.monitor ≠ MiHomeMode.monitor)]
    have hpre : receivePreamble env s = (some e, s') := by
      simp only [receivePreamble]
      rw [if_pos hguard, hF]
    rw [hpre]

/-- Claim C8: a `Receive` whose cancellation signal already fired when the polling loop is entered returns success having published zero events; and once the loop has returned, no further events are published (its result is stable under any additional step budget). -/
theorem C8_cancelled_entry_no_events :
    (∀ (env : Env) (fuel : Nat) (s s₀ : DState),
      receivePreamble env s = (none, s₀) →
      env.cancelled 0 = true →
      mihomeReceive env (fuel + 1) MiHomeMode.monitor s = (none, s₀) ∧
      s₀.events = s.events) ∧
    (∀ (env : Env) (fuel k i : Nat) (s s' : DState),
      (receiveLoop env fuel i s = (LoopOutcome.cancelled, s') →
        receiveLoop env (fuel + k) i s = (LoopOutcome.cancelled, s')) ∧
      (∀ e, receiveLoop env fuel i s = (LoopOutcome.failed e, s') →
        receiveLoop env (fuel + k) i s = (LoopOutcome.failed e, s'))) := by
  constructor
  · intro env fuel s s₀ hpre hcanc
    constructor
    · unfold mihomeReceive
      rw [if_neg (by simp : ¬MiHomeMode.monitor ≠ MiHomeMode.monitor), hpre]
      simp [receiveLoop, hcanc]
    · have h := receivePreamble_events env s
      rw [hpre] at h
      simpa using h
  · intro env fuel k i s s'
    exact ⟨fun h => receiveLoop_stable env fuel k i s _ s' h (by simp),
           fun e h => receiveLoop_stable env fuel k i s _ s' h (by simp)⟩

/-- Claim C9: a failing payload read terminates the polling loop immediately — the error is returned unchanged, the trace gains exactly that one read, no event is published for the iteration — and `Receive` returns that error to its caller. -/
theorem C9_read_error_fatal :
    (∀ (env : Env) (fuel i : Nat) (s : DState) (e : GoError),
      env.cancelled i = false →
      env.fault s.counter = some e →
      receiveLoop env (fuel + 1) i s =
        (LoopOutcome.failed e,
         { s with counter := s.counter + 1, trace := s.trace ++ [Act.readPayload] })) ∧
    (∀ (env : Env) (fuel : Nat) (s s₀ s₁ : DState) (e : GoError),
      receivePreamble env s = (none, s₀) →
      receiveLoop env fuel 0 s₀ = (LoopOutcome.failed e, s₁) →
      mihomeReceive env fuel MiHomeMode.monitor s = (some e, s₁)) := by
  constructor
  · intro env fuel i s e hc hf
    simp [receiveLoop, hc, readPayloadCall, radioCall, hf]
  · intro env fuel s s₀ s₁ e hpre hloop
    unfold mihomeReceive
    rw [if_neg (by simp : ¬MiHomeMode.monitor ≠ MiHomeMode.monitor), hpre]
    simp [hloop]

/-- Claim C10 (code bug): `On`/`Off` resolve and send one socket at a time in list order and return the first error, with an invalid index detected only at its turn; but on a fresh driver the claim's assertion that earlier sockets' commands were already transmitted fails — socket 1's `SendControl` succeeds while writing no payload at all. -/
theorem C10_multi_socket_not_atomic :
    (mihomeOn envIdle freshState [1, 7]).1 = some GoError.badParameter ∧
    (sendControl envIdle freshState freshState.cid OOK_ON_1 freshState.rep).1 = none ∧
    List.countP isWrite ((mihomeOn envIdle freshState [1, 7]).2.trace) = 0 ∧
    (mihomeOn envIdle freshState [5, 1]).1 = some GoError.badParameter ∧
    (mihomeOn envIdle freshState [5, 1]).2.trace = [] ∧
    (mihomeOff envIdle freshState [1, 7]).1 = some GoError.badParameter ∧
    List.countP isWrite ((mihomeOff envIdle freshState [1, 7]).2.trace) = 0 := by
  decide

/-- Witness for C2: the amended theorem applied to a concrete one-frame run whose decode yields message 5 with a failure. -/
theorem C2_message_event_fifo_witness :
    ∃ s', receiveLoop envDecodeMsgFail (1 + 1) 0 monitorState =
        receiveLoop envDecodeMsgFail 1 (0 + 1) s' ∧
      s'.events = monitorState.events ++ [⟨0, 5, some (GoError.transport 4)⟩] ∧
      ((∃ r, (some (GoError.transport 4) : Option GoError) = some r) →
        s'.trace = monitorState.trace ++
          [Act.readPayload, Act.setLED LED_RX true, Act.clearFIFO, Act.setLED LED_RX false] ∧
        (∀ e2, envDecodeMsgFail.fault (monitorState.counter + 1) = some e2 →
          s'.logged = monitorState.logged ++ [e2]) ∧
        (envDecodeMsgFail.fault (monitorState.counter + 1) = none →
          s'.logged = monitorState.logged)) ∧
      ((some (GoError.transport 4) : Option GoError) = none →
        s'.trace = monitorState.trace ++
          [Act.readPayload, Act.setLED LED_RX true, Act.setLED LED_RX false] ∧
        s'.logged = monitorState.logged) := by
  exact C2_message_event_fifo_amended envDecodeMsgFail 1 0 monitorState [2] 5
    (some (GoError.transport 4)) rfl rfl (by decide) (by decide)

/-- Witness for C3: both halves applied to a fresh driver with a fault-free environment. -/
theorem C3_mode_transition_witness :
    configCount ((sendControl envIdle freshState (some [0x06, 0xC6, 0xC6]) OOK_ON_ALL 8).2).trace =
      configCount freshState.trace + 1 ∧
    configCount ((mihomeReceive envIdle 1 MiHomeMode.monitor freshState).2).trace =
      configCount freshState.trace + 1 := by
  have h1 := C3_mode_transition_idempotent.1 envIdle freshState
      (some [0x06, 0xC6, 0xC6]) (some [0x06, 0xC6, 0xC6]) OOK_ON_ALL 8 OOK_ON_ALL 8
      ((sendControl envIdle freshState (some [0x06, 0xC6, 0xC6]) OOK_ON_ALL 8).2)
      ((sendControl envIdle
        ((sendControl envIdle freshState (some [0x06, 0xC6, 0xC6]) OOK_ON_ALL 8).2)
        (some [0x06, 0xC6, 0xC6]) OOK_ON_ALL 8).2)
      (by decide) (by decide) (by decide)
  have h2 := C3_mode_transition_idempotent.2 envIdle 1 1 freshState
      ((mihomeReceive envIdle 1 MiHomeMode.monitor freshState).2)
      ((mihomeReceive envIdle 1 MiHomeMode.monitor
        ((mihomeReceive envIdle 1 MiHomeMode.monitor freshState).2)).2)
      (by decide) (by decide) (by decide)
  exact ⟨h1.1, h2.1⟩

/-- Witness for C4: the shape applied to the 3-byte default address, and the failure applied to a nil address. -/
theorem C4_build_payload_witness :
    encodeCommandPayload (some [0x06, 0xC6, 0xC6]) OOK_ON_ALL =
      Except.ok (OOK_PREAMBLE ++ (goBytes (encodeByteArray (some [0x06, 0xC6, 0xC6]))).drop 2 ++
        (encodeByte OOK_ON_ALL).drop 2) ∧
    encodeCommandPayload none OOK_ON_ALL = Except.error GoError.appError := by
  refine ⟨((C4_build_payload_shape (some [0x06, 0xC6, 0xC6]) OOK_ON_ALL).1 [0x06, 0xC6, 0xC6] rfl rfl).1, ?_⟩
  exact (C4_build_payload_shape none OOK_ON_ALL).2 (by decide)

/-- Witness for C7: a transceiver error injected at the third configuration call aborts both sequences, is returned verbatim, and leaves the logical mode at NONE. -/
theorem C7_config_failure_witness :
    (sendControl envFaultAt2 freshState (some [0x06, 0xC6, 0xC6]) OOK_ON_ALL 8).1 =
      some (GoError.transport 7) ∧
    (sendControl envFaultAt2 freshState (some [0x06, 0xC6, 0xC6]) OOK_ON_ALL 8).2.mode =
      freshState.mode ∧
    (mihomeReceive envFaultAt2 1 MiHomeMode.monitor freshState).1 = some (GoError.transport 7) ∧
    (mihomeReceive envFaultAt2 1 MiHomeMode.monitor freshState).2.mode = freshState.mode := by
  have h1 := C7_config_failure_aborts.1 envFaultAt2 freshState (some [0x06, 0xC6, 0xC6])
      OOK_ON_ALL 8 (GoError.transport 7) ((setOOKMode envFaultAt2 freshState).2)
      (by decide) (by decide)
      ⟨[0x80, 0x00, 0x00, 0x00, 0x8E, 0xE8, 0xEE, 0x88, 0x8E, 0xE8, 0xEE, 0x88,
        0x8E, 0xE8, 0xEE, 0x8E], by decide⟩
      (by decide) (by decide)
  have h2 := C7_config_failure_aborts.2 envFaultAt2 1 freshState (GoError.transport 7)
      ((setFSKMode envFaultAt2 freshState).2) (by decide) (by decide)
  refine ⟨?_, ?_, ?_, ?_⟩
  · rw [h1.1]
  · rw [h1.1]; exact h1.2.1
  · rw [h2.1]
  · rw [h2.1]; exact h2.2.1

/-- Witness for C8: an already-cancelled context makes `Receive` return success with no events, and the cancelled loop result is unchanged by extra budget. -/
theorem C8_cancelled_entry_witness :
    mihomeReceive envIdle (0 + 1) MiHomeMode.monitor freshState =
      (none, (receivePreamble envIdle freshState).2) ∧
    (receivePreamble envIdle freshState).2.events = freshState.events ∧
    receiveLoop envIdle (1 + 3) 0 ((receivePreamble envIdle freshState).2) =
      (LoopOutcome.cancelled, (receivePreamble envIdle freshState).2) := by
  have h1 := C8_cancelled_entry_no_events.1 envIdle 0 freshState
      ((receivePreamble envIdle freshState).2) (by decide) rfl
  have h2 := (C8_cancelled_entry_no_events.2 envIdle 1 3 0
      ((receivePreamble envIdle freshState).2) ((receivePreamble envIdle freshState).2)).1
      (by decide)
  exact ⟨h1.1, h1.2, h2⟩

/-- Witness for C9: a read fault at the first loop iteration fails the loop with exactly one recorded read, and surfaces through `Receive`. -/
theorem C9_read_error_witness :
    receiveLoop envReadFault0 (0 + 1) 0 monitorState =
      (LoopOutcome.failed (GoError.transport 9),
       { monitorState with counter := monitorState.counter + 1, trace := monitorState.trace ++ [Act.readPayload] }) ∧
    mihomeReceive envReadFault24 1 MiHomeMode.monitor freshState =
      (some (GoError.transport 9),
       (receiveLoop envReadFault24 1 0 ((receivePreamble envReadFault24 freshState).2)).2) := by
  have h1 := C9_read_error_fatal.1 envReadFault0 0 0 monitorState (GoError.transport 9)
      rfl (by decide)
  have h2 := C9_read_error_fatal.2 envReadFault24 1 freshState
      ((receivePreamble envReadFault24 freshState).2)
      ((receiveLoop envReadFault24 1 0 ((receivePreamble envReadFault24 freshState).2)).2)
      (GoError.transport 9) (by decide) (by decide)
  exact ⟨h1, h2⟩
